import Mathlib

/-!
Verification of `src/packages/mcp-provider-dx-core/src/tools/create_custom_fields.ts`
(the `CreateCustomFieldsMcpTool` class) as a shallow embedding in Lean 4.

The remote metadata service (`connection.metadata.create` / `.update`) and the
org-connection resolver are modelled as deterministic oracles supplied as
parameters; a thrown JavaScript exception is modelled as `Except.error` carrying
the exception's message string.
-/

/-- One entry of `picklistValues` in the input schema (`picklistValueSchema`). -/
structure PicklistValue where
  value : String
  isDefault : Option Bool
deriving DecidableEq, Repr

/-- A field definition as validated by `fieldDefinitionSchema`.  The `type`
field is kept as a `String` (the zod enum validates it upstream; the builder
and mapper themselves branch on string values and have defensive fallbacks). -/
structure FieldDefinition where
  objectApiName : String
  fieldApiName : String
  label : String
  type : String
  description : Option String := none
  helpText : Option String := none
  required : Option Bool := none
  unique : Option Bool := none
  externalId : Option Bool := none
  length : Option Int := none
  precision : Option Int := none
  scale : Option Int := none
  visibleLines : Option Int := none
  picklistValues : Option (List PicklistValue) := none
  referenceTo : Option String := none
  relationshipName : Option String := none
  relationshipLabel : Option String := none
  deleteConstraint : Option String := none
deriving DecidableEq, Repr

/-- One entry of the `permissions` input array (`permissionAssignmentSchema`). -/
structure PermissionAssignment where
  permissionSetOrProfile : String
  readable : Bool
  editable : Bool
deriving DecidableEq, Repr

/-- One entry of the `valueSetDefinition.value` array built for picklists. -/
structure PicklistEntry where
  fullName : String
  default : Bool
  label : String
deriving DecidableEq, Repr

/-- The `valueSetDefinition` object built for picklists. -/
structure ValueSetDefinition where
  sorted : Bool
  value : List PicklistEntry
deriving DecidableEq, Repr

/-- The `valueSet` object built for picklists. -/
structure ValueSet where
  restricted : Bool
  valueSetDefinition : ValueSetDefinition
deriving DecidableEq, Repr

/-- A JavaScript value stored in the metadata payload record
(`Record<string, unknown>`).  `protoMember name` is the member a property
read finds on `Object.prototype` under `name` (e.g. the `toString` function):
object property lookup falls through the prototype chain, so
`typeMap[type]` can evaluate to such a member. -/
inductive FieldValue where
  | str (s : String)
  | int (n : Int)
  | bool (b : Bool)
  | vset (v : ValueSet)
  | protoMember (name : String)
deriving DecidableEq, Repr

/-- The `typeMap` record literal of `mapFieldType` (lines 270-288), as an
association list in declaration order (its keys are pairwise distinct);
this list holds the object's *own* properties — the prototype chain that a
JavaScript property read also consults is modelled in `mapFieldType`. -/
def typeMap : List (String × String) :=
  [("Text", "Text"),
   ("Number", "Number"),
   ("Checkbox", "Checkbox"),
   ("Date", "Date"),
   ("DateTime", "DateTime"),
   ("Email", "Email"),
   ("Phone", "Phone"),
   ("Url", "Url"),
   ("Currency", "Currency"),
   ("Percent", "Percent"),
   ("TextArea", "TextArea"),
   ("LongTextArea", "LongTextArea"),
   ("RichTextArea", "Html"),
   ("Picklist", "Picklist"),
   ("MultiselectPicklist", "MultiselectPicklist"),
   ("Lookup", "Lookup"),
   ("MasterDetail", "MasterDetail")]

/-- The property names of `Object.prototype` (ECMA-262): a property read on
an object literal that misses every own key still finds these through the
prototype chain, yielding the inherited member — which is not nullish, so a
`??` fallback after such a read does not fire. -/
def objectPrototypeKeys : List String :=
  ["constructor", "hasOwnProperty", "isPrototypeOf", "propertyIsEnumerable",
   "toLocaleString", "toString", "valueOf", "__proto__",
   "__defineGetter__", "__defineSetter__", "__lookupGetter__", "__lookupSetter__"]

/-- `mapFieldType` (lines 269-290): `typeMap[type] ?? type`.  The property
read first finds an own key of the record literal; failing that it finds a
member inherited from `Object.prototype` (so `??` does not fire for those
names); only when both miss does the read give `undefined` and `?? type`
return the input. -/
def mapFieldType (type : String) : FieldValue :=
  match typeMap.lookup type with
  | some v => .str v
  | none =>
    if type ∈ objectPrototypeKeys then .protoMember type
    else .str type

/-- The `valueSet` object built in the Picklist/MultiselectPicklist branch of
`buildFieldMetadata` (lines 238-248). -/
def picklistValueSet (pvs : List PicklistValue) : ValueSet :=
  { restricted := true,
    valueSetDefinition :=
      { sorted := false,
        value := pvs.map fun pv =>
          { fullName := pv.value, default := pv.isDefault.getD false, label := pv.value } } }

/-- The type-specific part of the `switch (field.type)` in `buildFieldMetadata`
(lines 217-263): the record entries each branch assigns, in assignment order.
A value of `none` models JavaScript `undefined`. -/
def typeSpecificMetadata (field : FieldDefinition) : List (String × Option FieldValue) :=
  if field.type = "Text" then
    [("length", some (.int (field.length.getD 255)))]
  else if field.type = "Number" ∨ field.type = "Currency" ∨ field.type = "Percent" then
    [("precision", some (.int (field.precision.getD 18))),
     ("scale", some (.int (field.scale.getD 2)))]
  else if field.type = "TextArea" then
    [("length", some (.int (field.length.getD 255)))]
  else if field.type = "LongTextArea" ∨ field.type = "RichTextArea" then
    [("length", some (.int (field.length.getD 32768))),
     ("visibleLines", some (.int (field.visibleLines.getD 6)))]
  else if field.type = "Picklist" ∨ field.type = "MultiselectPicklist" then
    -- `field.picklistValues && field.picklistValues.length > 0`: an absent
    -- array is encoded as `getD []`, whose length test gives the same guard.
    (if 0 < (field.picklistValues.getD []).length then
       [("valueSet", some (.vset (picklistValueSet (field.picklistValues.getD []))))]
     else []) ++
    (if field.type = "MultiselectPicklist" then
       [("visibleLines", some (.int (field.visibleLines.getD 4)))]
     else [])
  else if field.type = "Lookup" ∨ field.type = "MasterDetail" then
    [("referenceTo", field.referenceTo.map .str),
     ("relationshipName", some (.str (field.relationshipName.getD (field.fieldApiName ++ "s")))),
     ("relationshipLabel", some (.str (field.relationshipLabel.getD (field.label ++ "s"))))] ++
    (if field.type = "Lookup" then
       [("deleteConstraint", some (.str (field.deleteConstraint.getD "SetNull")))]
     else [])
  else []

/-- The `metadata` record of `buildFieldMetadata` before the final
undefined-filter (lines 206-263): base attributes, then the switch's
type-specific attributes.  Keys are pairwise distinct, so the record is an
association list in assignment order. -/
def buildFieldMetadataRaw (field : FieldDefinition) : List (String × Option FieldValue) :=
  [("label", some (.str field.label)),
   ("type", some (mapFieldType field.type)),
   ("description", field.description.map .str),
   ("inlineHelpText", field.helpText.map .str),
   ("required", some (.bool (field.required.getD false))),
   ("unique", some (.bool (field.unique.getD false))),
   ("externalId", some (.bool (field.externalId.getD false)))] ++
  typeSpecificMetadata field

/-- `buildFieldMetadata` (lines 205-267): the metadata record with entries whose
value is `undefined` removed
(`Object.fromEntries(Object.entries(metadata).filter(([_, v]) => v !== undefined))`). -/
def buildFieldMetadata (field : FieldDefinition) : List (String × Option FieldValue) :=
  (buildFieldMetadataRaw field).filter fun kv => kv.2.isSome

/-- JavaScript `String.prototype.endsWith`, computed on the character list. -/
def strEndsWith (s suffix : String) : Bool :=
  suffix.data.isSuffixOf s.data

/-- The fully-qualified field name computation of `deployFieldsAndPermissions`
(lines 167-169): append `__c` unless the field API name already ends with it. -/
def fullFieldName (fieldApiName : String) : String :=
  if strEndsWith fieldApiName "__c" then fieldApiName else fieldApiName ++ "__c"

/-- One submitted metadata item (lines 170-174): the `CustomField` type tag, the
qualified `fullName`, and the spread of `buildFieldMetadata`. -/
structure MetadataItem where
  metadataType : String
  fullName : String
  metadata : List (String × Option FieldValue)
deriving DecidableEq, Repr

/-- The element function of `fields.map` building `metadataItems` (lines 166-175). -/
def metadataItem (field : FieldDefinition) : MetadataItem :=
  { metadataType := "CustomField",
    fullName := field.objectApiName ++ "." ++ fullFieldName field.fieldApiName,
    metadata := buildFieldMetadata field }

/-- An element of a `SaveResult`'s `errors` field. -/
structure SaveError where
  message : String
deriving DecidableEq, Repr

/-- A remote value that may be a single element or an array of elements, as both
`metadata.create` and `metadata.update` may return (jsforce's behaviour). -/
inductive SingleOrList (α : Type) where
  | single (a : α)
  | list (l : List α)
deriving DecidableEq, Repr

/-- The `Array.isArray(x) ? x : [x]` normalization applied to deploy results
(line 179) and to per-result `errors` (lines 188, 329, 344). -/
def SingleOrList.toList : SingleOrList α → List α
  | .single a => [a]
  | .list l => l

/-- The `Array.isArray(x) ? x[0] : x` extraction applied to update results
(lines 315, 325, 340); `none` models `undefined` from indexing an empty array. -/
def SingleOrList.firstElem : SingleOrList α → Option α
  | .single a => some a
  | .list l => l.head?

/-- A per-item outcome `{fullName, success, errors}` returned by the remote
metadata calls. -/
structure SaveResult where
  fullName : String
  success : Bool
  errors : SingleOrList SaveError
deriving DecidableEq, Repr

/-- One entry of the `fieldPermissions` array built per grantee (lines 302-306). -/
structure FieldPermission where
  field : String
  readable : Bool
  editable : Bool
deriving DecidableEq, Repr

/-- The remote connection, modelled as deterministic oracles for the two
metadata calls the tool makes.  `Except.error msg` models the call throwing an
exception whose message is `msg`. -/
structure Connection where
  metadataCreate : List MetadataItem → Except String (SingleOrList SaveResult)
  metadataUpdate : (metadataType : String) → (fullName : String) →
    (fieldPermissions : List FieldPermission) → Except String (SingleOrList SaveResult)

/-- A `CallToolResult` as produced by `textResponse`: the report text and the
caller-visible error flag. -/
structure CallToolResult where
  text : String
  isError : Bool
deriving DecidableEq, Repr

/-- Modelled from the spec: `textResponse` (imported from `../shared/utils.js`,
not part of the reviewed sources) packages a text report together with the
caller-visible error flag (spec section 6: "Returns: a text report plus an
error flag"). -/
def textResponse (text : String) (isError : Bool) : CallToolResult :=
  { text := text, isError := isError }

/-- `normalizeDeployResult` models line 179:
`Array.isArray(deployResult) ? deployResult : [deployResult]`. -/
def normalizeDeployResult (deployResult : SingleOrList SaveResult) : List SaveResult :=
  deployResult.toList

/-- The failure string pushed for an unsuccessful deploy result (lines 188-189):
normalize `errors` to an array and join the messages with `", "`. -/
def formatFailedField (result : SaveResult) : String :=
  result.fullName ++ ": " ++
    String.intercalate ", " (result.errors.toList.map fun e => e.message)

/-- The body of the partitioning loop (lines 184-191), as a fold step over the
`(successFields, failedFields)` accumulator pair. -/
def partitionStep (acc : List String × List String) (result : SaveResult) :
    List String × List String :=
  if result.success then (acc.1 ++ [result.fullName], acc.2)
  else (acc.1, acc.2 ++ [formatFailedField result])

/-- The `for (const result of results)` loop of lines 181-191 producing
`(successFields, failedFields)`. -/
def partitionResults (results : List SaveResult) : List String × List String :=
  results.foldl partitionStep ([], [])

/-- The `fieldPermissions` array built for one grantee (lines 302-306): one
entry per successful field, all with the grantee's readable/editable pair. -/
def grantList (fieldNames : List String) (perm : PermissionAssignment) :
    List FieldPermission :=
  fieldNames.map fun fieldName =>
    { field := fieldName, readable := perm.readable, editable := perm.editable }

/-- One `connection.metadata.update` call followed by the
`Array.isArray(updateResult) ? updateResult[0] : updateResult` extraction.
An empty-array response would make the subsequent `.success` access throw a
TypeError in JavaScript; that is modelled by the `.error` in the `none` case. -/
def tryUpdate (c : Connection) (metadataType fullName : String)
    (fieldPermissions : List FieldPermission) : Except String SaveResult :=
  match c.metadataUpdate metadataType fullName fieldPermissions with
  | .error e => .error e
  | .ok updateResult =>
    match updateResult.firstElem with
    | some result => .ok result
    | none => .error "Cannot read properties of undefined"

/-- The Profile attempt block, duplicated in the source at lines 320-331 (the
declared-failure path) and lines 335-346 (the exception path): update as
`Profile`, then record a success line or a joined-errors failure line.
`Except.error` propagates a throw from the update call itself. -/
def profileBlock (c : Connection) (perm : PermissionAssignment)
    (fieldPermissions : List FieldPermission) : Except String String :=
  match tryUpdate c "Profile" perm.permissionSetOrProfile fieldPermissions with
  | .error e => .error e
  | .ok pResult =>
    if pResult.success then
      .ok ("✓ Profile \"" ++ perm.permissionSetOrProfile ++ "\": assigned")
    else
      .ok ("✗ \"" ++ perm.permissionSetOrProfile ++ "\": " ++
        String.intercalate ", " (pResult.errors.toList.map fun e => e.message))

/-- The body of the per-grantee loop of `assignFieldPermissions`
(lines 299-351): the inner try (PermissionSet attempt; on declared failure the
Profile block runs inside the same try), its `catch (permSetError)` (Profile
block again), and the outer `catch (error)` recording the escaped exception's
message. -/
def processPermission (c : Connection) (fieldNames : List String)
    (perm : PermissionAssignment) : String :=
  let fieldPermissions := grantList fieldNames perm
  let inner : Except String String :=
    match tryUpdate c "PermissionSet" perm.permissionSetOrProfile fieldPermissions with
    | .error e => .error e
    | .ok result =>
      if result.success then
        .ok ("✓ Permission Set \"" ++ perm.permissionSetOrProfile ++ "\": assigned")
      else
        profileBlock c perm fieldPermissions
  let afterInnerCatch : Except String String :=
    match inner with
    | .ok line => .ok line
    | .error _ => profileBlock c perm fieldPermissions
  match afterInnerCatch with
  | .ok line => line
  | .error e => "✗ \"" ++ perm.permissionSetOrProfile ++ "\": " ++ e

/-- The `results` array of `assignFieldPermissions` (lines 297-351): one line
per grantee, pushed in input order. -/
def assignFieldPermissionsLines (c : Connection) (fieldNames : List String)
    (permissions : List PermissionAssignment) : List String :=
  permissions.map (processPermission c fieldNames)

/-- `assignFieldPermissions` (lines 292-354): the per-grantee lines joined with
newlines. -/
def assignFieldPermissions (c : Connection) (fieldNames : List String)
    (permissions : List PermissionAssignment) : String :=
  String.intercalate "\n" (assignFieldPermissionsLines c fieldNames permissions)

/-- `buildResultSummary` (lines 356-379). -/
def buildResultSummary (successFields failedFields : List String)
    (permissionResults : String) : String :=
  let parts : List String :=
    (if 0 < successFields.length then
       ["Successfully created " ++ toString successFields.length ++ " field(s):",
        String.intercalate "\n" (successFields.map fun f => "  ✓ " ++ f)]
     else []) ++
    (if 0 < failedFields.length then
       ["\nFailed to create " ++ toString failedFields.length ++ " field(s):",
        String.intercalate "\n" (failedFields.map fun f => "  ✗ " ++ f)]
     else []) ++
    (if permissionResults ≠ "" then ["\nPermission assignments:", permissionResults]
     else [])
  String.intercalate "\n" parts

/-- `deployFieldsAndPermissions` (lines 160-201).  `Except.error` models the
batch create call throwing (the only uncaught throw inside this method);
everything after it is exception-free. -/
def deployFieldsAndPermissions (connection : Connection)
    (fields : List FieldDefinition)
    (permissions : Option (List PermissionAssignment)) :
    Except String CallToolResult :=
  let metadataItems := fields.map metadataItem
  match connection.metadataCreate metadataItems with
  | .error e => .error e
  | .ok deployResult =>
    let results := normalizeDeployResult deployResult
    let successFields := (partitionResults results).1
    let failedFields := (partitionResults results).2
    let permissionResults :=
      match permissions with
      | some perms =>
        if 0 < perms.length ∧ 0 < successFields.length then
          assignFieldPermissions connection successFields perms
        else ""
      | none => ""
    let summary := buildResultSummary successFields failedFields permissionResults
    .ok (textResponse summary (decide (0 < failedFields.length)))

/-- An observable side effect of one `exec` invocation: the process-wide
working-directory change and each remote call. -/
inductive Effect where
  | chdir (directory : String)
  | getConnection (usernameOrAlias : String)
  | metadataCreate (items : List MetadataItem)
  | metadataUpdate (metadataType fullName : String) (fieldPermissions : List FieldPermission)
deriving DecidableEq, Repr

/-- The remote calls made while processing one grantee (the loop body of
lines 299-351), in call order: the PermissionSet update, then the Profile
update where the control flow reaches it (once on the throw path or a
successful declared-failure retry, twice when the Profile call inside the
inner try throws and the `catch (permSetError)` block retries it). -/
def processPermissionEffects (c : Connection) (fieldNames : List String)
    (perm : PermissionAssignment) : List Effect :=
  let fieldPermissions := grantList fieldNames perm
  let psCall := Effect.metadataUpdate "PermissionSet" perm.permissionSetOrProfile fieldPermissions
  let profCall := Effect.metadataUpdate "Profile" perm.permissionSetOrProfile fieldPermissions
  match tryUpdate c "PermissionSet" perm.permissionSetOrProfile fieldPermissions with
  | .error _ => [psCall, profCall]
  | .ok result =>
    if result.success then [psCall]
    else
      match tryUpdate c "Profile" perm.permissionSetOrProfile fieldPermissions with
      | .ok _ => [psCall, profCall]
      | .error _ => [psCall, profCall, profCall]

/-- The remote calls made by `deployFieldsAndPermissions` (lines 160-201), in
call order: the batch create, then the permission-phase updates when that phase
runs. -/
def deployEffects (connection : Connection) (fields : List FieldDefinition)
    (permissions : Option (List PermissionAssignment)) : List Effect :=
  let metadataItems := fields.map metadataItem
  Effect.metadataCreate metadataItems ::
    match connection.metadataCreate metadataItems with
    | .error _ => []
    | .ok deployResult =>
      let successFields := (partitionResults (normalizeDeployResult deployResult)).1
      match permissions with
      | some perms =>
        if 0 < perms.length ∧ 0 < successFields.length then
          (perms.map (processPermissionEffects connection successFields)).flatten
        else []
      | none => []

/-- The environment of one `exec` invocation:
`this.services.getOrgService().getConnection` as a deterministic oracle
(`Except.error` models a thrown resolution error). -/
structure Env where
  getConnection : String → Except String Connection

/-- The validated tool input (`createCustomFieldsParams`).  `usernameOrAlias`
is `Option String` so that an absent identifier is representable; the guard
`!input.usernameOrAlias` is JavaScript-falsy for an absent or empty string. -/
structure InputArgs where
  fields : List FieldDefinition
  permissions : Option (List PermissionAssignment)
  usernameOrAlias : Option String
  directory : String

/-- The JavaScript truthiness test `!input.usernameOrAlias` (line 141). -/
def usernameAbsent : Option String → Bool
  | none => true
  | some s => s = ""

/-- `exec` (lines 140-158), returning the `CallToolResult` together with the
trace of side effects in the order they happen.  `SfError.wrap(error).message`
is modelled as the exception's message itself. -/
def execTool (env : Env) (input : InputArgs) : CallToolResult × List Effect :=
  if usernameAbsent input.usernameOrAlias then
    (textResponse
      "The usernameOrAlias parameter is required. Use the #get_username tool if not specified."
      true, [])
  else
    let username := input.usernameOrAlias.getD ""
    let trace0 := [Effect.chdir input.directory, Effect.getConnection username]
    match env.getConnection username with
    | .error e =>
      (textResponse ("Failed to create custom fields: " ++ e) true, trace0)
    | .ok connection =>
      let trace := trace0 ++ deployEffects connection input.fields input.permissions
      match deployFieldsAndPermissions connection input.fields input.permissions with
      | .error e =>
        (textResponse ("Failed to create custom fields: " ++ e) true, trace)
      | .ok result => (result, trace)

/-- The process-wide working directory after a trace of effects, starting from
`cwd`: only `Effect.chdir` changes it. -/
def finalCwd (cwd : String) : List Effect → String
  | [] => cwd
  | .chdir d :: rest => finalCwd d rest
  | _ :: rest => finalCwd cwd rest

/-! ## Helper lemmas -/

/-- Every key ever assigned by the type-specific switch branch. -/
lemma typeSpecificMetadata_keys (f : FieldDefinition) (k : String) (v : Option FieldValue)
    (h : (k, v) ∈ typeSpecificMetadata f) :
    k ∈ ["length", "precision", "scale", "visibleLines", "valueSet", "referenceTo",
         "relationshipName", "relationshipLabel", "deleteConstraint"] := by
  unfold typeSpecificMetadata at h
  split_ifs at h <;> simp_all <;> tauto

/-- The fold of the partitioning loop, characterized by filters over the
results list. -/
lemma partitionResults_foldl (results : List SaveResult) (a b : List String) :
    results.foldl partitionStep (a, b) =
      (a ++ (results.filter fun r => r.success).map fun r => r.fullName,
       b ++ (results.filter fun r => !r.success).map formatFailedField) := by
  induction results generalizing a b with
  | nil => simp
  | cons r rest ih =>
    by_cases h : r.success = true <;>
      simp [partitionStep, h, ih]

/-! ## Claims -/

/-- Counterexample to C7 as stated: `"toString"` lies outside the 17 logical
type names, yet the property read `typeMap["toString"]` finds the member
inherited from `Object.prototype`, which is not nullish, so `?? type` never
fires and the mapper returns that member — not the input unchanged. -/
theorem mapFieldType_toString_inherited :
    mapFieldType "toString" = FieldValue.protoMember "toString" ∧
    mapFieldType "toString" ≠ FieldValue.str "toString" := by decide

/-- C7 amended: the field type mapper is a deterministic function on strings
that maps `RichTextArea` to `Html` and each of the other 16 logical type
names to itself; an input outside the 17 names is returned unchanged unless
it names a property of `Object.prototype` (`toString`, `constructor`,
`hasOwnProperty`, ...), in which case the record lookup finds the inherited
member and returns it instead of the input. -/
theorem mapFieldType_proto_aware (t : String) :
    mapFieldType "RichTextArea" = .str "Html" ∧
    (∀ p ∈ typeMap, p.1 ≠ "RichTextArea" → mapFieldType p.1 = .str p.1) ∧
    (t ≠ "RichTextArea" → t ∉ objectPrototypeKeys → mapFieldType t = .str t) ∧
    (t ∉ typeMap.map Prod.fst → t ∈ objectPrototypeKeys →
      mapFieldType t = .protoMember t) := by
  refine ⟨by decide, by decide, fun h hproto => ?_, fun hown hproto => ?_⟩
  · unfold mapFieldType
    cases hl : typeMap.lookup t with
    | none => simp [hproto]
    | some v =>
      have hmem : (t, v) ∈ typeMap := by
        obtain ⟨l₁, l₂, hsplit, -⟩ := List.lookup_eq_some_iff.mp hl
        rw [hsplit]
        exact List.mem_append_right _ (List.mem_cons_self _ _)
      have hall : ∀ p ∈ typeMap, p.1 = "RichTextArea" ∨ p.2 = p.1 := by decide
      rcases hall _ hmem with h1 | h2
      · exact absurd h1 h
      · exact congrArg FieldValue.str h2
  · unfold mapFieldType
    have hl : typeMap.lookup t = none := by
      rw [List.lookup_eq_none_iff]
      intro p hp
      simp only [bne_iff_ne]
      intro hq
      exact hown (by rw [hq]; exact List.mem_map_of_mem Prod.fst hp)
    rw [hl]
    simp [hproto]

/-- Witness for C7 (amended) at concrete inputs: the enum name `"Text"` and
the unknown, non-prototype name `"Mystery"` map to themselves, and the
`Object.prototype` property name `"valueOf"` maps to the inherited member. -/
theorem mapFieldType_proto_aware_witness :
    mapFieldType "Text" = FieldValue.str "Text" ∧
    mapFieldType "Mystery" = FieldValue.str "Mystery" ∧
    mapFieldType "valueOf" = FieldValue.protoMember "valueOf" :=
  ⟨(mapFieldType_proto_aware "Text").2.2.1 (by decide) (by decide),
   (mapFieldType_proto_aware "Mystery").2.2.1 (by decide) (by decide),
   (mapFieldType_proto_aware "valueOf").2.2.2 (by decide) (by decide)⟩

/-- C3: the submitted fullName is `objectApiName ++ "." ++ fieldApiName` with
`__c` appended exactly when the field API name does not already end in `__c`;
in particular `Foo` on `Object` and `Foo__c` on `Object` both submit
`Object.Foo__c`. -/
theorem metadataItem_fullName_suffix (f : FieldDefinition) :
    ((strEndsWith f.fieldApiName "__c" = false →
        (metadataItem f).fullName = f.objectApiName ++ "." ++ f.fieldApiName ++ "__c") ∧
     (strEndsWith f.fieldApiName "__c" = true →
        (metadataItem f).fullName = f.objectApiName ++ "." ++ f.fieldApiName)) ∧
    (metadataItem { objectApiName := "Object", fieldApiName := "Foo",
                    label := "Foo", type := "Text" }).fullName = "Object.Foo__c" ∧
    (metadataItem { objectApiName := "Object", fieldApiName := "Foo__c",
                    label := "Foo", type := "Text" }).fullName = "Object.Foo__c" := by
  refine ⟨⟨fun h => ?_, fun h => ?_⟩, by decide, by decide⟩
  · simp [metadataItem, fullFieldName, h, String.append_assoc]
  · simp [metadataItem, fullFieldName, h]

/-- Witness for C3: the two implications discharged at the concrete fields of
the claim's example. -/
theorem metadataItem_fullName_suffix_witness :
    (metadataItem { objectApiName := "Object", fieldApiName := "Foo",
                    label := "Foo", type := "Text" }).fullName =
      "Object" ++ "." ++ "Foo" ++ "__c" ∧
    (metadataItem { objectApiName := "Object", fieldApiName := "Foo__c",
                    label := "Foo", type := "Text" }).fullName =
      "Object" ++ "." ++ "Foo__c" :=
  ⟨(metadataItem_fullName_suffix _).1.1 (by decide),
   (metadataItem_fullName_suffix _).1.2 (by decide)⟩

/-- C6: the payload returned by the field metadata builder never contains a
key whose value is `undefined`; in particular an omitted description or help
text leaves no `description` / `inlineHelpText` key in the payload. -/
theorem buildFieldMetadata_no_undefined (f : FieldDefinition) :
    (∀ kv ∈ buildFieldMetadata f, kv.2.isSome = true) ∧
    (f.description = none → ∀ v, ("description", v) ∉ buildFieldMetadata f) ∧
    (f.helpText = none → ∀ v, ("inlineHelpText", v) ∉ buildFieldMetadata f) := by
  refine ⟨fun kv hkv => (List.mem_filter.mp hkv).2, fun hd v hv => ?_, fun hh v hv => ?_⟩
  · obtain ⟨hraw, hsome⟩ := List.mem_filter.mp hv
    unfold buildFieldMetadataRaw at hraw
    rcases List.mem_append.mp hraw with hbase | hspec
    · simp [hd] at hbase
      simp [hbase] at hsome
    · have := typeSpecificMetadata_keys f "description" v hspec
      simp at this
  · obtain ⟨hraw, hsome⟩ := List.mem_filter.mp hv
    unfold buildFieldMetadataRaw at hraw
    rcases List.mem_append.mp hraw with hbase | hspec
    · simp [hh] at hbase
      simp [hbase] at hsome
    · have := typeSpecificMetadata_keys f "inlineHelpText" v hspec
      simp at this

/-- Witness for C6: a Text field with no description and no help text; the
`label` entry of its payload is defined, and the theorem's conclusions are
discharged at that concrete field. -/
theorem buildFieldMetadata_no_undefined_witness :
    (("label", some (FieldValue.str "My Field")) :
        String × Option FieldValue).2.isSome = true ∧
    ("description", (none : Option FieldValue)) ∉
      buildFieldMetadata { objectApiName := "Account", fieldApiName := "My",
                           label := "My Field", type := "Text" } :=
  ⟨(buildFieldMetadata_no_undefined
      { objectApiName := "Account", fieldApiName := "My",
        label := "My Field", type := "Text" }).1
      ("label", some (FieldValue.str "My Field")) (by decide),
   (buildFieldMetadata_no_undefined
      { objectApiName := "Account", fieldApiName := "My",
        label := "My Field", type := "Text" }).2.1 rfl none⟩

/-- C5: for a Picklist or MultiselectPicklist field with a non-empty
`picklistValues` sequence, the built payload contains a restricted, unsorted
value-set with one entry per input value in input order, each entry
`{fullName := value, label := value, default := isDefault-or-false}`. -/
theorem buildFieldMetadata_picklist_valueSet (f : FieldDefinition)
    (pvs : List PicklistValue)
    (htype : f.type = "Picklist" ∨ f.type = "MultiselectPicklist")
    (hpvs : f.picklistValues = some pvs) (hne : 0 < pvs.length) :
    ("valueSet", some (FieldValue.vset
      { restricted := true,
        valueSetDefinition :=
          { sorted := false,
            value := pvs.map fun pv =>
              { fullName := pv.value, default := pv.isDefault.getD false,
                label := pv.value } } }))
      ∈ buildFieldMetadata f := by
  have hne2 : f.type ≠ "Text" ∧ ¬(f.type = "Number" ∨ f.type = "Currency" ∨ f.type = "Percent") ∧
      f.type ≠ "TextArea" ∧ ¬(f.type = "LongTextArea" ∨ f.type = "RichTextArea") := by
    rcases htype with h | h <;> simp [h]
  simp only [buildFieldMetadata, buildFieldMetadataRaw, List.mem_filter, List.mem_append,
    typeSpecificMetadata, hne2.1, hne2.2.1, hne2.2.2.1, hne2.2.2.2, htype, hpvs,
    if_false, if_true, Option.getD_some, hne, picklistValueSet]
  simp

/-- Witness for C5 at the claim's example: values `A` (default) and `B` on a
Picklist field produce the two entries in order, defaults `true` then `false`. -/
theorem buildFieldMetadata_picklist_valueSet_witness :
    ("valueSet", some (FieldValue.vset
      { restricted := true,
        valueSetDefinition :=
          { sorted := false,
            value := [{ fullName := "A", default := true, label := "A" },
                      { fullName := "B", default := false, label := "B" }] } }))
      ∈ buildFieldMetadata { objectApiName := "Contact", fieldApiName := "Status",
                             label := "Status", type := "Picklist",
                             picklistValues := some [⟨"A", some true⟩, ⟨"B", none⟩] } := by
  have h := buildFieldMetadata_picklist_valueSet
    { objectApiName := "Contact", fieldApiName := "Status",
      label := "Status", type := "Picklist",
      picklistValues := some [⟨"A", some true⟩, ⟨"B", none⟩] }
    [⟨"A", some true⟩, ⟨"B", none⟩] (Or.inl rfl) rfl (by decide)
  simpa using h

/-- C2: whenever `deployFieldsAndPermissions` returns a result (i.e. the
batch create did not throw and the summary is reached), the result's error
flag is set iff `failedFields` is non-empty; permission outcomes never enter
the flag. -/
theorem deploy_isError_iff_failedFields (c : Connection)
    (fields : List FieldDefinition) (perms : Option (List PermissionAssignment))
    (dr : SingleOrList SaveResult)
    (hcreate : c.metadataCreate (fields.map metadataItem) = .ok dr)
    (r : CallToolResult)
    (hr : deployFieldsAndPermissions c fields perms = .ok r) :
    r.isError = true ↔ (partitionResults (normalizeDeployResult dr)).2 ≠ [] := by
  unfold deployFieldsAndPermissions at hr
  dsimp only at hr
  rw [hcreate] at hr
  simp only [Except.ok.injEq] at hr
  subst hr
  simp [textResponse, List.length_pos]

/-- The connection used to witness C2: a batch create reporting one success
and one declared failure. -/
def witnessDeployResponse : SingleOrList SaveResult :=
  .list [{ fullName := "Account.Good__c", success := true, errors := .list [] },
         { fullName := "Account.Bad__c", success := false,
           errors := .single { message := "duplicate" } }]

/-- The connection used to witness C2. -/
def witnessConn : Connection :=
  { metadataCreate := fun _ => .ok witnessDeployResponse,
    metadataUpdate := fun _ _ _ =>
      .ok (.single { fullName := "", success := true, errors := .list [] }) }

/-- The fields used to witness C2. -/
def witnessFields : List FieldDefinition :=
  [{ objectApiName := "Account", fieldApiName := "Good", label := "Good", type := "Text" },
   { objectApiName := "Account", fieldApiName := "Bad", label := "Bad", type := "Text" }]

/-- The result the witnessed invocation returns. -/
def witnessResult : CallToolResult :=
  ((deployFieldsAndPermissions witnessConn witnessFields none).toOption).getD
    (textResponse "" false)

/-- Witness for C2: with one declared failure in the batch, the returned
error flag is set. -/
theorem deploy_isError_iff_failedFields_witness :
    witnessResult.isError = true ↔
      (partitionResults (normalizeDeployResult witnessDeployResponse)).2 ≠ [] :=
  deploy_isError_iff_failedFields witnessConn witnessFields none
    witnessDeployResponse rfl witnessResult rfl

/-- The single outcome returned by the C4 counterexample's remote call. -/
def c4Outcome : SaveResult :=
  { fullName := "Account.One__c", success := true, errors := .list [] }

/-- The C4 counterexample's connection: the batch create returns one outcome,
not an array. -/
def c4Conn : Connection :=
  { metadataCreate := fun _ => .ok (.single c4Outcome),
    metadataUpdate := fun _ _ _ => .ok (.single c4Outcome) }

/-- The C4 counterexample's batch: two field specs. -/
def c4Fields : List FieldDefinition :=
  [{ objectApiName := "Account", fieldApiName := "One", label := "One", type := "Text" },
   { objectApiName := "Account", fieldApiName := "Two", label := "Two", type := "Text" }]

/-- Counterexample to C4 as stated: for a batch of N = 2 field specs whose
remote create call returns a single outcome, the orchestrator's normalization
(line 179) yields a sequence of length 1, not length N. -/
theorem normalize_single_not_batch_length :
    c4Conn.metadataCreate (c4Fields.map metadataItem) = .ok (.single c4Outcome) ∧
    (normalizeDeployResult (.single c4Outcome)).length ≠ c4Fields.length :=
  ⟨rfl, by decide⟩

/-- C4 amended: the orchestrator normalizes the remote create call's return
value by wrapping a single outcome into a one-element sequence and keeping a
returned sequence as-is (so its length is the number of returned outcomes, not
necessarily N), and partitions the outcomes into successFields/failedFields by
each outcome's own success flag, recording each under the fullName carried by
the outcome itself — never by correlating positions with the input order. -/
theorem normalize_and_partition_by_fullName (dr : SingleOrList SaveResult) :
    (∀ r, normalizeDeployResult (.single r) = [r]) ∧
    (∀ l, normalizeDeployResult (.list l) = l) ∧
    (partitionResults (normalizeDeployResult dr)).1 =
      ((normalizeDeployResult dr).filter fun r => r.success).map (fun r => r.fullName) ∧
    (partitionResults (normalizeDeployResult dr)).2 =
      ((normalizeDeployResult dr).filter fun r => !r.success).map formatFailedField := by
  refine ⟨fun r => rfl, fun l => rfl, ?_, ?_⟩ <;>
    simp [partitionResults, partitionResults_foldl]

/-- C1: when the PermissionSet update either throws or returns a result with
`success = false`, the same grant-list is retried as a Profile update, and —
provided that Profile call returns a result — that result decides the
grantee's recorded line: the Profile success line, or the failure line with
the Profile result's joined error messages. -/
theorem permission_fallback_to_profile (c : Connection) (fieldNames : List String)
    (perm : PermissionAssignment) (pr : SaveResult)
    (hA : (∃ e, tryUpdate c "PermissionSet" perm.permissionSetOrProfile
              (grantList fieldNames perm) = .error e) ∨
          (∃ r, tryUpdate c "PermissionSet" perm.permissionSetOrProfile
              (grantList fieldNames perm) = .ok r ∧ r.success = false))
    (hB : tryUpdate c "Profile" perm.permissionSetOrProfile
        (grantList fieldNames perm) = .ok pr) :
    processPermission c fieldNames perm =
      if pr.success then "✓ Profile \"" ++ perm.permissionSetOrProfile ++ "\": assigned"
      else "✗ \"" ++ perm.permissionSetOrProfile ++ "\": " ++
        String.intercalate ", " (pr.errors.toList.map fun e => e.message) := by
  unfold processPermission profileBlock
  dsimp only
  rcases hA with ⟨e, he⟩ | ⟨r0, hr0, hs⟩
  · rw [he, hB]
    by_cases hps : pr.success = true <;> simp [hps]
  · rw [hr0, hB]
    by_cases hps : pr.success = true <;> simp [hps, hs]

/-- The connection used to witness C1: the PermissionSet update declares
failure, the Profile update succeeds. -/
def fallbackConn : Connection :=
  { metadataCreate := fun _ => .ok (.list []),
    metadataUpdate := fun metadataType _ _ =>
      if metadataType = "PermissionSet" then
        .ok (.single { fullName := "SalesTeam", success := false, errors := .list [] })
      else
        .ok (.single { fullName := "SalesTeam", success := true, errors := .list [] }) }

/-- Witness for C1: with the PermissionSet update declaring failure and the
Profile update succeeding, the grantee's line is the Profile success line. -/
theorem permission_fallback_to_profile_witness :
    processPermission fallbackConn ["Account.Good__c"]
      { permissionSetOrProfile := "SalesTeam", readable := true, editable := true } =
      "✓ Profile \"SalesTeam\": assigned" := by
  have h := permission_fallback_to_profile fallbackConn ["Account.Good__c"]
    { permissionSetOrProfile := "SalesTeam", readable := true, editable := true }
    { fullName := "SalesTeam", success := true, errors := .list [] }
    (Or.inr ⟨{ fullName := "SalesTeam", success := false, errors := .list [] }, rfl, rfl⟩)
    rfl
  simpa using h

/-- C8: the permission engine produces exactly one line per grantee, in input
order (line i is a function of grantee i alone); and an exception escaping a
grantee's whole attempt — here, both updates throwing — is caught and recorded
as that grantee's failure line with the exception's message, so it cannot
abort the remaining grantees. -/
theorem assign_one_line_per_grantee (c : Connection) (fieldNames : List String)
    (perms : List PermissionAssignment) :
    ((assignFieldPermissionsLines c fieldNames perms).length = perms.length ∧
     ∀ i : Nat, (assignFieldPermissionsLines c fieldNames perms)[i]? =
       (perms[i]?).map (processPermission c fieldNames)) ∧
    (∀ perm e1 e2,
        c.metadataUpdate "PermissionSet" perm.permissionSetOrProfile
          (grantList fieldNames perm) = .error e1 →
        c.metadataUpdate "Profile" perm.permissionSetOrProfile
          (grantList fieldNames perm) = .error e2 →
        processPermission c fieldNames perm =
          "✗ \"" ++ perm.permissionSetOrProfile ++ "\": " ++ e2) := by
  refine ⟨⟨by simp [assignFieldPermissionsLines], fun i => ?_⟩,
          fun perm e1 e2 h1 h2 => ?_⟩
  · simp [assignFieldPermissionsLines]
  · unfold processPermission profileBlock tryUpdate
    dsimp only
    rw [h1, h2]

/-- The connection used to witness C8: every remote call throws. -/
def throwingConn : Connection :=
  { metadataCreate := fun _ => .error "network down",
    metadataUpdate := fun _ _ _ => .error "network down" }

/-- Witness for C8: one grantee whose both update attempts throw still yields
exactly one line, the failure line carrying the exception's message. -/
theorem assign_one_line_per_grantee_witness :
    (assignFieldPermissionsLines throwingConn ["Account.Good__c"]
      [{ permissionSetOrProfile := "SalesTeam", readable := true, editable := false }]).length
        = 1 ∧
    processPermission throwingConn ["Account.Good__c"]
      { permissionSetOrProfile := "SalesTeam", readable := true, editable := false } =
      "✗ \"SalesTeam\": network down" := by
  have h := assign_one_line_per_grantee throwingConn ["Account.Good__c"]
    [{ permissionSetOrProfile := "SalesTeam", readable := true, editable := false }]
  exact ⟨h.1.1, h.2 _ "network down" "network down" rfl rfl⟩

/-- C9: with the usernameOrAlias identifier absent, `exec` immediately returns
the fixed instructional message with the error flag set, and its effect trace
is empty — no working-directory change, no connection resolution, and no
remote call happens. -/
theorem exec_missing_username_rejects (env : Env) (input : InputArgs)
    (h : input.usernameOrAlias = none) :
    execTool env input =
      (textResponse
        "The usernameOrAlias parameter is required. Use the #get_username tool if not specified."
        true, []) := by
  unfold execTool
  rw [h]
  rfl

/-- The environment used to witness C9 and C10. -/
def witnessEnv : Env :=
  { getConnection := fun _ => .error "no default org" }

/-- The input used to witness C9 and C10: a valid one-field batch whose
usernameOrAlias is absent. -/
def witnessInput : InputArgs :=
  { fields := [{ objectApiName := "Account", fieldApiName := "Good",
                 label := "Good", type := "Text" }],
    permissions := none,
    usernameOrAlias := none,
    directory := "/home/user/project" }

/-- Witness for C9 at the concrete environment and input. -/
theorem exec_missing_username_rejects_witness :
    execTool witnessEnv witnessInput =
      (textResponse
        "The usernameOrAlias parameter is required. Use the #get_username tool if not specified."
        true, []) :=
  exec_missing_username_rejects witnessEnv witnessInput rfl

/-- C10: with the usernameOrAlias identifier absent, the process-wide working
directory is unchanged — the rejection path emits no `chdir` effect (the
`process.chdir(input.directory)` call sits after the identifier check), so the
final working directory equals the initial one. -/
theorem exec_missing_username_no_chdir (env : Env) (input : InputArgs)
    (cwd : String) (h : input.usernameOrAlias = none) :
    finalCwd cwd (execTool env input).2 = cwd ∧
    ∀ d, Effect.chdir d ∉ (execTool env input).2 := by
  have htrace : (execTool env input).2 = [] := by
    unfold execTool
    rw [h]
    rfl
  rw [htrace]
  exact ⟨rfl, fun d => List.not_mem_nil _⟩

/-- Witness for C10 at the concrete environment, input, and a concrete initial
working directory: the working directory is unchanged and the input's
requested directory is never switched to. -/
theorem exec_missing_username_no_chdir_witness :
    finalCwd "/start" (execTool witnessEnv witnessInput).2 = "/start" ∧
    Effect.chdir "/home/user/project" ∉ (execTool witnessEnv witnessInput).2 :=
  ⟨(exec_missing_username_no_chdir witnessEnv witnessInput "/start" rfl).1,
   (exec_missing_username_no_chdir witnessEnv witnessInput "/start" rfl).2
     "/home/user/project"⟩
